import Mathlib

/-!
Verification development for the d3.js pie-chart example scripts
(src/javascripts/piechart.js and src/unnamed/part_000).

The two scripts configure the d3 library (selection, pie layout, arc
generators, event handlers) over a hardcoded dataset.  Pure numeric values
are embedded as rationals; the d3 library calls that the scripts make are
embedded by their effect, with each definition citing the source lines it
translates.  Transitions are modelled by their end state.
-/

/-- A segment datum, as in the hardcoded `inputData` arrays
(src/unnamed/part_000 line 12, src/javascripts/piechart.js line 12):
an object with a `name` string field and a numeric `value` field. -/
structure Datum where
  name : String
  value : ℚ
deriving DecidableEq, Repr

/-- The hardcoded dataset of both scripts
(src/unnamed/part_000 line 12): six named values 10, 7, 5, 2, 1, 1. -/
def inputData : List Datum :=
  [⟨("Name 1"), 10⟩, ⟨("Name 2"), 7⟩, ⟨("Name 3"), 5⟩,
   ⟨("Name 4"), 2⟩, ⟨("Name 5"), 1⟩, ⟨("Name 6"), 1⟩]

/-- The sum of the values of a dataset, as computed by the pie layout over
the value accessor `function(d) \x7b return d["value"]; \x7d`
(src/unnamed/part_000 line 62). -/
def total (ds : List Datum) : ℚ :=
  (ds.map (fun d => d.value)).sum

/-- One arc produced by the pie layout: the original datum together with
its start and end angle.  Angles are stored as exact fractions of the full
turn: an arc from `startFrac` to `endFrac` covers the angle interval
from `2 * pi * startFrac` to `2 * pi * endFrac` radians. -/
structure PieArc where
  data : Datum
  startFrac : ℚ
  endFrac : ℚ
deriving DecidableEq, Repr

/-- Modelled from the spec: the d3 pie layout `d3.layout.pie()` is library
code, not part of src/; the spec describes it as partitioning the full
circle 0 to 2 pi among the segments proportionally to each value relative
to the sum of all values, preserving input order because the sort
comparator is disabled by `.sort(null)` (src/unnamed/part_000 lines
60-62).  `pieArcsAux t a ds` lays out `ds` starting at angle fraction `a`
with value total `t`: each datum `d` receives the next slice of width
`d.value / t` of the circle.  (For `t = 0` the JavaScript original would
compute NaN angles; rational division by zero yields width 0 here, and in
both readings the spans do not sum to the full circle.) -/
def pieArcsAux (t : ℚ) : ℚ → List Datum → List PieArc
  | _, [] => []
  | a, d :: ds => ⟨d, a, a + d.value / t⟩ :: pieArcsAux t (a + d.value / t) ds

/-- Modelled from the spec: the pie layout applied to a dataset, starting
at angle 0 and partitioning the full circle by value
(src/unnamed/part_000 lines 60-62, src/javascripts/piechart.js lines
58-60). -/
def pie (ds : List Datum) : List PieArc :=
  pieArcsAux (total ds) 0 ds

/-- The angular span of one arc as a fraction of the full turn. -/
def spanFrac (p : PieArc) : ℚ :=
  p.endFrac - p.startFrac

/-- The angular span of one arc in radians: the fraction of the full turn
times 2 pi. -/
noncomputable def spanAngle (p : PieArc) : ℝ :=
  2 * Real.pi * ((spanFrac p : ℚ) : ℝ)

/-- The angular span of one arc in degrees: the fraction of the full turn
times 360, kept as an exact rational. -/
def spanDeg (p : PieArc) : ℚ :=
  spanFrac p * 360

/-- Modelled from the spec: `d3.scale.category20c()` (src/unnamed/part_000
line 43) is library code, not part of src/; the spec describes it as a
fixed 20-colour categorical palette addressed by segment index, wrapping
when the dataset is longer than the palette.  The palette colours are
pairwise distinct, so a colour is represented by its palette index
`i % 20`. -/
def colour (i : ℕ) : ℕ :=
  i % 20

/-- The fill attribute of each rendered segment:
`.attr("fill", function(d, i) \x7b return colour(i); \x7d)`
(src/unnamed/part_000 line 70) pairs the segment at position `i` of the
pie layout output with palette colour `colour i`.  The assignment of
colours to names is this list of name-colour pairs in render order. -/
def colourAssignment (ds : List Datum) : List (String × ℕ) :=
  (pie ds).enum.map (fun ip => (ip.2.data.name, colour ip.1))

/-- The set of palette colours used by a rendering. -/
def coloursUsed (ds : List Datum) : Finset ℕ :=
  ((colourAssignment ds).map Prod.snd).toFinset

/-- The multiset of angular spans (as fractions of the full turn) produced
by a rendering. -/
def spanMultiset (ds : List Datum) : Multiset ℚ :=
  ((pie ds).map spanFrac : List ℚ)

/-- An arc generator configuration: the inner and outer radius handed to
`d3.svg.arc()` (src/unnamed/part_000 lines 46-57).  It determines the
shape attribute written to a segment path element. -/
structure ArcShape where
  innerRadius : ℚ
  outerRadius : ℚ
deriving DecidableEq, Repr

/-- The chart radius `Math.min(width, height) / 2`
(src/unnamed/part_000 line 14). -/
def radiusOf (width height : ℚ) : ℚ :=
  min width height / 2

/-- The resting arc: `.outerRadius(radius - 10).innerRadius(radius - 20)`
(src/unnamed/part_000 lines 46-48). -/
def arcRest (radius : ℚ) : ArcShape :=
  ⟨radius - 20, radius - 10⟩

/-- The hover arc: `.outerRadius(radius).innerRadius(radius - 15)`
(src/unnamed/part_000 lines 51-53). -/
def arcHover (radius : ℚ) : ArcShape :=
  ⟨radius - 15, radius⟩

/-- A pointer event dispatched to a segment path element: pointer-enter
(mouseover), pointer-move (mousemove, with pointer coordinates relative to
the container), or pointer-leave (mouseout).  The datum is the `data`
field of the bound pie arc. -/
inductive PtrEvent where
  | enter (d : Datum)
  | move (d : Datum) (x y : ℚ)
  | leave (d : Datum)
deriving DecidableEq, Repr

/-- Whether an event is a pointer-move. -/
def PtrEvent.isMove : PtrEvent → Bool
  | .move _ _ _ => true
  | _ => false

/-- The mutable per-segment and tooltip state touched by the handlers of
src/unnamed/part_000: the shape attribute of the hovered segment, the
display style of the tooltip, the text content of its key and value child
divs, and its transform attribute (absent until first set). -/
structure ChartState where
  segShape : ArcShape
  tooltipDisplay : String
  keyText : String
  valueText : String
  tooltipTransform : Option (ℚ × ℚ)
deriving DecidableEq, Repr

/-- The state right after construction: the segment carries the resting
arc (src/unnamed/part_000 line 69), the tooltip is created with
`.style("display", "none")` (line 32) and empty key and value divs
(lines 34-40), and no transform attribute has been set on the tooltip. -/
def initState (radius : ℚ) : ChartState :=
  ⟨arcRest radius, ("none"), (""), (""), none⟩

/-- The event handlers of src/unnamed/part_000, lines 71-95, one step per
dispatched event; a 1000 ms transition is modelled by its end state.
  * mouseover (lines 71-78): transition the shape attribute to the hover
    arc and set the tooltip display style to inline.  No text is written.
  * mousemove (lines 79-88): write the name of the datum into the key div via
    `tooltip.select(".tooltipKey").text(d.data["name"])`; the write of the
    value, `tooltip.select("tooltipValue").text(d.data["value"])`, uses a
    selector missing its leading class dot, so it addresses a nonexistent
    `tooltipValue` element: the d3 empty selection makes it a no-op and
    the value div is never written.  Then set the tooltip transform to the
    pointer coordinates offset by (-10, -10) (lines 84-85).
  * mouseout (lines 89-95): transition the shape attribute back to the
    resting arc and set the tooltip display style to none. -/
def step (radius : ℚ) (s : ChartState) : PtrEvent → ChartState
  | .enter _ => { s with segShape := arcHover radius, tooltipDisplay := ("inline") }
  | .move d x y => { s with keyText := d.name, tooltipTransform := some (x - 10, y - 10) }
  | .leave _ => { s with segShape := arcRest radius, tooltipDisplay := ("none") }

/-- Run a sequence of pointer events from the post-construction state. -/
def run (radius : ℚ) (evs : List PtrEvent) : ChartState :=
  evs.foldl (step radius) (initState radius)

/-- The DOM effect of the construction chain, summarised: whether an svg
drawing surface was appended to the container, how many segment path
elements it holds, whether the tooltip overlay was appended, and whether
any error was reported to the caller. -/
structure RenderedDom where
  svgAppended : Bool
  pathCount : ℕ
  tooltipAppended : Bool
  errorReported : Bool
deriving DecidableEq, Repr

/-- Modelled from the spec: `d3.select(divId)` is library code, not part of
src/.  When the selector resolves, the chain of src/unnamed/part_000
appends the svg (lines 18-24), the tooltip with its two child divs (lines
27-40), and one path element per pie arc through the data join
`svg.selectAll("path").data(pie(inputData)).enter().append("path")`
(lines 65-68).  When the selector resolves to zero elements, the spec
records that the chain is a silent no-op — it renders nothing rather
than failing fast — so nothing is appended; no statement in either script
reports an error to the caller in any case, so `errorReported` is false
on both branches.  Every operation involved is total: construction never
throws, also on an empty dataset, where the data join enters zero path
elements. -/
def construct (containerResolves : Bool) (ds : List Datum) : RenderedDom :=
  if containerResolves then
    ⟨true, (pie ds).length, true, false⟩
  else
    ⟨false, 0, false, false⟩

/-- A JavaScript value, as far as the scripts need: undefined, a number,
or a string. -/
inductive JSVal where
  | jsUndefined
  | num (q : ℚ)
  | str (s : String)
deriving DecidableEq, Repr

/-- A lexical environment: the free variables in scope at the accessor,
each bound to a value. -/
def lookupVar (env : List (String × JSVal)) (x : String) : Option JSVal :=
  (env.find? (fun p => p.1 = x)).map (fun p => p.2)

/-- Property access on a segment datum object: the datum has exactly the
fields `name` (a string) and `value` (a number); any other key yields
undefined. -/
def Datum.field (d : Datum) (k : String) : JSVal :=
  if k = ("name") then .str d.name
  else if k = ("value") then .num d.value
  else .jsUndefined

/-- JavaScript property-key coercion of a value used inside brackets. -/
def keyOfVal : JSVal → String
  | .jsUndefined => ("undefined")
  | .num q => toString q
  | .str s => s

/-- Evaluation of a bracket access `d[x]` where `x` is written as a bare
identifier, as in src/javascripts/piechart.js lines 60, 74 and 75: the
identifier is first resolved in the enclosing scope; an unresolved
identifier raises a ReferenceError, and a resolved one is coerced to a
property key before the access. -/
def evalBareIndex (env : List (String × JSVal)) (d : Datum) (x : String) :
    Except String JSVal :=
  match lookupVar env x with
  | none => .error (String.append ("ReferenceError: ") x)
  | some v => .ok (d.field (keyOfVal v))

/-- The pie value accessor of src/javascripts/piechart.js line 60,
`function(d) \x7b console.log(d); return d[value]; \x7d`: a bracket access
through the bare identifier `value` (the diagnostic print has no effect on
the result). -/
def pjValueAccessor (env : List (String × JSVal)) (d : Datum) :
    Except String JSVal :=
  evalBareIndex env d ("value")

/-- The tooltip key read of the mouseover handler of
src/javascripts/piechart.js line 74, `d[name]`: a bracket access through
the bare identifier `name`. -/
def pjKeyAccessor (env : List (String × JSVal)) (d : Datum) :
    Except String JSVal :=
  evalBareIndex env d ("name")

/-- Auxiliary: the pie layout keeps every datum in place, whatever the
running start angle is. -/
theorem pieArcsAux_map_data (t a : ℚ) (ds : List Datum) :
    (pieArcsAux t a ds).map PieArc.data = ds := by
  induction ds generalizing a with
  | nil => rfl
  | cons d ds ih => simp [pieArcsAux, ih]

/-- Auxiliary: the pie layout returns the input data, in input order. -/
theorem pie_map_data (ds : List Datum) : (pie ds).map PieArc.data = ds :=
  pieArcsAux_map_data _ _ _

/-- Auxiliary: one arc per input datum. -/
theorem pie_length (ds : List Datum) : (pie ds).length = ds.length := by
  have h := congrArg List.length (pie_map_data ds)
  simpa using h

/-- Auxiliary: each arc spans the fraction value over total, whatever the
running start angle is. -/
theorem pieArcsAux_map_spanFrac (t a : ℚ) (ds : List Datum) :
    (pieArcsAux t a ds).map spanFrac = ds.map (fun d => d.value / t) := by
  induction ds generalizing a with
  | nil => rfl
  | cons d ds ih => simp [pieArcsAux, spanFrac, ih]

/-- Auxiliary: the spans of the pie layout are the values divided by the
value total, in input order. -/
theorem pie_map_spanFrac (ds : List Datum) :
    (pie ds).map spanFrac = ds.map (fun d => d.value / total ds) :=
  pieArcsAux_map_spanFrac _ _ _

/-- Auxiliary: dividing each list entry by a constant divides the sum. -/
theorem sum_map_div (l : List ℚ) (t : ℚ) :
    (l.map (fun v => v / t)).sum = l.sum / t := by
  induction l with
  | nil => simp
  | cons x xs ih => simp [ih, add_div]

/-- Auxiliary: with a nonzero value total, the span fractions sum to one
full turn. -/
theorem pie_sum_spanFrac (ds : List Datum) (h : total ds ≠ 0) :
    ((pie ds).map spanFrac).sum = 1 := by
  rw [pie_map_spanFrac,
    show (fun d : Datum => d.value / total ds)
        = ((fun v => v / total ds) ∘ fun d : Datum => d.value) from rfl,
    ← List.map_map, sum_map_div]
  exact div_self h

/-- Auxiliary: casting a rational list to the reals commutes with the
sum. -/
theorem cast_list_sum (l : List ℚ) :
    (l.map (fun q : ℚ => (q : ℝ))).sum = ((l.sum : ℚ) : ℝ) := by
  induction l with
  | nil => simp
  | cons x xs ih => simp only [List.map_cons, List.sum_cons, ih, Rat.cast_add]

/-- C1 (amended): for every dataset of non-negative values with positive
value total, the pie layout assigns each segment a start and end angle
such that the sum of all segment angular spans equals 2 pi exactly, for
every ordering of the input dataset (the statement quantifies over all
datasets, hence over all orderings). -/
theorem pie_spans_sum_two_pi (ds : List Datum)
    (_hnn : ∀ d ∈ ds, 0 ≤ d.value) (hpos : 0 < total ds) :
    ((pie ds).map spanAngle).sum = 2 * Real.pi := by
  have h1 : ((pie ds).map spanFrac).sum = 1 :=
    pie_sum_spanFrac ds (ne_of_gt hpos)
  have h2 : (pie ds).map spanAngle
      = ((pie ds).map spanFrac).map (fun q : ℚ => 2 * Real.pi * (q : ℝ)) := by
    rw [List.map_map]; rfl
  rw [h2, List.sum_map_mul_left, cast_list_sum, h1]
  norm_num

/-- C1, counterexample to the unamended claim: the dataset with one
segment of value 0 has only non-negative values, yet the spans of its pie
layout do not sum to 2 pi (the value total is 0, so no circle is
partitioned). -/
theorem pie_spans_zero_total_counterexample :
    ((pie [⟨("Name 1"), 0⟩]).map spanAngle).sum ≠ 2 * Real.pi := by
  have h : ((pie [⟨("Name 1"), 0⟩]).map spanAngle).sum = 0 := by
    norm_num [pie, pieArcsAux, total, spanAngle, spanFrac]
  rw [h]
  exact ne_of_lt (by positivity)

/-- C1, witness: the hardcoded dataset satisfies both hypotheses, and its
spans sum to 2 pi. -/
theorem pie_spans_sum_two_pi_witness :
    ((∀ d ∈ inputData, 0 ≤ d.value) ∧ 0 < total inputData) ∧
    ((pie inputData).map spanAngle).sum = 2 * Real.pi :=
  ⟨⟨by norm_num [inputData], by norm_num [total, inputData]⟩,
    pie_spans_sum_two_pi inputData (by norm_num [inputData])
      (by norm_num [total, inputData])⟩

/-- C2: the layout preserves the input order of the segments: mapping each
arc back to its datum returns the input dataset unchanged, so the i-th
rendered segment corresponds to the i-th input datum and no sorting by
value or name happens before the circle is partitioned. -/
theorem pie_preserves_input_order (ds : List Datum) :
    (pie ds).map PieArc.data = ds :=
  pie_map_data ds

/-- C3: in the hardcoded dataset, whose values sum to 26, the first
rendered segment is named Name 1 and its angular span in degrees is
exactly 10 / 26 * 360, which lies within 0.01 of 138.46. -/
theorem name_one_span_degrees :
    ∃ p : PieArc, (pie inputData).head? = some p ∧
      p.data.name = ("Name 1") ∧
      spanDeg p = 10 / 26 * 360 ∧
      |spanDeg p - 138.46| ≤ 0.01 := by
  refine ⟨⟨⟨("Name 1"), 10⟩, 0, 0 + 10 / total inputData⟩, rfl, rfl, ?_, ?_⟩
  · norm_num [spanDeg, spanFrac, total, inputData]
  · rw [abs_le]
    constructor <;> norm_num [spanDeg, spanFrac, total, inputData]

/-- Auxiliary: the set of colours a rendering uses depends only on the
number of segments. -/
theorem coloursUsed_eq_range (ds : List Datum) :
    coloursUsed ds = ((List.range ds.length).map colour).toFinset := by
  unfold coloursUsed colourAssignment
  rw [List.map_map,
    show (Prod.snd ∘ fun ip : ℕ × PieArc => (ip.2.data.name, colour ip.1))
        = (colour ∘ Prod.fst) from rfl,
    ← List.map_map, List.enum_map_fst, pie_length]

/-- C4, counterexample: two datasets that are permutations of each other
in genuinely different orders need not get a different assignment of
colours to names: permuting two data that share the name Name 1 leaves
the name-to-colour assignment unchanged, because colour is index-based
and the name at each index is the same. -/
theorem perm_colour_assignment_counterexample :
    ([⟨("Name 1"), 1⟩, ⟨("Name 1"), 2⟩] : List Datum).Perm
        [⟨("Name 1"), 2⟩, ⟨("Name 1"), 1⟩] ∧
    ([⟨("Name 1"), 1⟩, ⟨("Name 1"), 2⟩] : List Datum)
        ≠ [⟨("Name 1"), 2⟩, ⟨("Name 1"), 1⟩] ∧
    colourAssignment [⟨("Name 1"), 1⟩, ⟨("Name 1"), 2⟩]
        = colourAssignment [⟨("Name 1"), 2⟩, ⟨("Name 1"), 1⟩] := by
  refine ⟨List.Perm.swap _ _ _, ?_, ?_⟩
  · intro h
    have h10 : (1 : ℚ) = 2 := congrArg Datum.value (List.head_eq_of_cons_eq h)
    norm_num at h10
  · decide

/-- C4 (amended): for every two datasets that are permutations of each
other, the set of colours used and the multiset of angular spans are the
same; the fill colour is a function of the segment index, not of its
value or name, so reordering can change which colour a name receives (as
it does for the two-segment dataset below and its reversal), but it does
not have to for every permuted pair. -/
theorem perm_same_colours_and_spans :
    (∀ ds1 ds2 : List Datum, ds1.Perm ds2 →
        coloursUsed ds1 = coloursUsed ds2 ∧
        spanMultiset ds1 = spanMultiset ds2) ∧
    (∃ ds1 ds2 : List Datum, ds1.Perm ds2 ∧
        colourAssignment ds1 ≠ colourAssignment ds2) := by
  constructor
  · intro ds1 ds2 hperm
    have hlen : ds1.length = ds2.length := hperm.length_eq
    have htot : total ds1 = total ds2 := by
      unfold total
      exact (hperm.map (fun d => d.value)).sum_eq
    constructor
    · rw [coloursUsed_eq_range, coloursUsed_eq_range, hlen]
    · unfold spanMultiset
      rw [pie_map_spanFrac, pie_map_spanFrac, htot]
      exact Multiset.coe_eq_coe.mpr (hperm.map _)
  · exact ⟨[⟨("Name 1"), 10⟩, ⟨("Name 2"), 7⟩],
      [⟨("Name 2"), 7⟩, ⟨("Name 1"), 10⟩],
      List.Perm.swap _ _ _, by decide⟩

/-- C4, witness: the permutation hypothesis discharged on the two-element
dataset of Name 1 and Name 2 and its reversal. -/
theorem perm_same_colours_and_spans_witness :
    coloursUsed [⟨("Name 1"), 10⟩, ⟨("Name 2"), 7⟩]
        = coloursUsed [⟨("Name 2"), 7⟩, ⟨("Name 1"), 10⟩] ∧
    spanMultiset [⟨("Name 1"), 10⟩, ⟨("Name 2"), 7⟩]
        = spanMultiset [⟨("Name 2"), 7⟩, ⟨("Name 1"), 10⟩] :=
  perm_same_colours_and_spans.1 _ _ (List.Perm.swap _ _ _)

/-- C5, code evaluation at the failing input: hovering the Name 1 segment
(radius from the 125 by 125 configuration) and then moving the pointer
leaves the tooltip value div empty instead of holding the string form of
the value 10: the mouseover handler writes no text at all, and the
mousemove handler misses the value div because its selector lacks the
leading class dot.  The shape transition, the tooltip visibility and the
key text do behave as claimed. -/
theorem hover_value_text_never_written :
    (run (radiusOf 125 125)
        [.enter ⟨("Name 1"), 10⟩, .move ⟨("Name 1"), 10⟩ 5 5]).segShape
      = arcHover (radiusOf 125 125) ∧
    (run (radiusOf 125 125)
        [.enter ⟨("Name 1"), 10⟩, .move ⟨("Name 1"), 10⟩ 5 5]).tooltipDisplay
      = ("inline") ∧
    (run (radiusOf 125 125)
        [.enter ⟨("Name 1"), 10⟩, .move ⟨("Name 1"), 10⟩ 5 5]).keyText
      = ("Name 1") ∧
    (run (radiusOf 125 125)
        [.enter ⟨("Name 1"), 10⟩, .move ⟨("Name 1"), 10⟩ 5 5]).valueText
      = ("") ∧
    (run (radiusOf 125 125)
        [.enter ⟨("Name 1"), 10⟩, .move ⟨("Name 1"), 10⟩ 5 5]).valueText
      ≠ ("10") :=
  ⟨rfl, rfl, rfl, rfl, by decide⟩

/-- C6: a pointer-leave event always restores the shape attribute of the
segment to exactly the resting arc with inner radius radius - 20 and
outer radius radius - 10 and sets the tooltip display style to none, from
every reachable or unreachable state, hence in particular when no
pointer-move happened in the hover session: the second pair of conjuncts
runs an arbitrary event history before the pointer-leave. -/
theorem leave_restores_resting_shape :
    ∀ (radius : ℚ) (s : ChartState) (d : Datum) (evs : List PtrEvent),
      (step radius s (.leave d)).segShape = arcRest radius ∧
      (step radius s (.leave d)).tooltipDisplay = ("none") ∧
      (run radius (evs ++ [.leave d])).segShape = arcRest radius ∧
      (run radius (evs ++ [.leave d])).tooltipDisplay = ("none") := by
  intro radius s d evs
  refine ⟨rfl, rfl, ?_, ?_⟩ <;> simp [run, List.foldl_append, step]

/-- C7, code evaluation at the failing input: when the container selector
resolves to zero elements, the construction chain is a silent no-op: it
appends nothing anywhere, but it also reports no error to the caller for
any dataset, contrary to the fail-fast requirement. -/
theorem missing_container_silent_noop :
    construct false inputData
      = ⟨false, 0, false, false⟩ ∧
    ∀ ds : List Datum, (construct false ds).errorReported = false :=
  ⟨rfl, fun _ => rfl⟩

/-- C8: constructing with an empty dataset is a degenerate valid state:
the drawing surface and the tooltip overlay are appended, the pie layout of
the empty dataset is empty, zero segment path elements are entered, and no
error arises (the construction function is total). -/
theorem empty_dataset_renders_empty_surface :
    construct true [] = ⟨true, 0, true, false⟩ ∧ pie [] = [] :=
  ⟨rfl, rfl⟩

/-- C9: in the piechart.js variant, the pie value accessor reads d[value]
and the mouseover handler reads d[name], both through bare identifiers;
whenever the scope binds neither identifier, both accesses raise a
ReferenceError instead of retrieving the name and value fields of the
datum. -/
theorem bare_identifier_access_fails :
    ∀ (env : List (String × JSVal)) (d : Datum),
      lookupVar env ("name") = none →
      lookupVar env ("value") = none →
      pjKeyAccessor env d
          = Except.error (String.append ("ReferenceError: ") ("name")) ∧
      pjValueAccessor env d
          = Except.error (String.append ("ReferenceError: ") ("value")) ∧
      pjKeyAccessor env d ≠ Except.ok (JSVal.str d.name) ∧
      pjValueAccessor env d ≠ Except.ok (JSVal.num d.value) := by
  intro env d hn hv
  unfold pjKeyAccessor pjValueAccessor evalBareIndex
  rw [hn, hv]
  exact ⟨rfl, rfl, by simp, by simp⟩

/-- C9, witness: in the empty scope, the value accessor of piechart.js
raises a ReferenceError on the Name 1 datum. -/
theorem bare_identifier_access_fails_witness :
    (lookupVar [] ("name") = none ∧ lookupVar [] ("value") = none) ∧
    pjValueAccessor [] ⟨("Name 1"), 10⟩
        = Except.error (String.append ("ReferenceError: ") ("value")) :=
  ⟨⟨rfl, rfl⟩,
    (bare_identifier_access_fails [] ⟨("Name 1"), 10⟩ rfl rfl).2.1⟩

/-- Auxiliary: a run of events containing no pointer-move leaves the
tooltip key and value texts untouched, from any starting state. -/
theorem foldl_no_move_texts (radius : ℚ) (evs : List PtrEvent) :
    ∀ s : ChartState, evs.all (fun e => !e.isMove) = true →
      (evs.foldl (step radius) s).keyText = s.keyText ∧
      (evs.foldl (step radius) s).valueText = s.valueText := by
  induction evs with
  | nil => intro s _; exact ⟨rfl, rfl⟩
  | cons e evs ih =>
    intro s h
    rw [List.all_cons, Bool.and_eq_true] at h
    have hstep : (step radius s e).keyText = s.keyText ∧
        (step radius s e).valueText = s.valueText := by
      cases e with
      | enter d => exact ⟨rfl, rfl⟩
      | move d x y => simp [PtrEvent.isMove] at h
      | leave d => exact ⟨rfl, rfl⟩
    have hrest := ih (step radius s e) h.2
    rw [List.foldl_cons]
    exact ⟨hrest.1.trans hstep.1, hrest.2.trans hstep.2⟩

/-- C10: in the variant with a pointer-move handler, the tooltip key and
value texts are written by no handler other than pointer-move, and
pointer-enter only makes the tooltip visible without touching the texts;
hence between pointer-enter and the first pointer-move the tooltip shows
whatever text the previous hover session left (the text is unchanged from
the state before the enter), and shows empty texts when no pointer-move
ever ran since construction. -/
theorem tooltip_text_stale_until_move :
    (∀ (radius : ℚ) (s : ChartState) (e : PtrEvent), e.isMove = false →
        (step radius s e).keyText = s.keyText ∧
        (step radius s e).valueText = s.valueText) ∧
    (∀ (radius : ℚ) (s : ChartState) (d : Datum),
        (step radius s (.enter d)).tooltipDisplay = ("inline") ∧
        (step radius s (.enter d)).keyText = s.keyText ∧
        (step radius s (.enter d)).valueText = s.valueText) ∧
    (∀ (radius : ℚ) (evs : List PtrEvent),
        evs.all (fun e => !e.isMove) = true →
        (run radius evs).keyText = ("") ∧
        (run radius evs).valueText = ("")) := by
  refine ⟨?_, ?_, ?_⟩
  · intro radius s e he
    cases e with
    | enter d => exact ⟨rfl, rfl⟩
    | move d x y => simp [PtrEvent.isMove] at he
    | leave d => exact ⟨rfl, rfl⟩
  · intro radius s d
    exact ⟨rfl, rfl, rfl⟩
  · intro radius evs h
    exact foldl_no_move_texts radius evs (initState radius) h

/-- C10, witness: a hover session of one pointer-enter followed by one
pointer-leave never writes the texts: after it both texts are still
empty, and the pointer-enter in isolation keeps the pre-enter text. -/
theorem tooltip_text_stale_until_move_witness :
    ((PtrEvent.enter ⟨("Name 1"), 10⟩).isMove = false ∧
      ([PtrEvent.enter ⟨("Name 1"), 10⟩,
        PtrEvent.leave ⟨("Name 1"), 10⟩].all (fun e => !e.isMove) = true)) ∧
    ((step 50 (initState 50) (PtrEvent.enter ⟨("Name 1"), 10⟩)).keyText
        = (initState 50).keyText ∧
      (run 50 [PtrEvent.enter ⟨("Name 1"), 10⟩,
        PtrEvent.leave ⟨("Name 1"), 10⟩]).keyText = ("") ∧
      (run 50 [PtrEvent.enter ⟨("Name 1"), 10⟩,
        PtrEvent.leave ⟨("Name 1"), 10⟩]).valueText = ("")) :=
  ⟨⟨rfl, rfl⟩,
    (tooltip_text_stale_until_move.1 50 (initState 50)
      (PtrEvent.enter ⟨("Name 1"), 10⟩) rfl).1,
    (tooltip_text_stale_until_move.2.2 50
      [PtrEvent.enter ⟨("Name 1"), 10⟩,
        PtrEvent.leave ⟨("Name 1"), 10⟩] rfl).1,
    (tooltip_text_stale_until_move.2.2 50
      [PtrEvent.enter ⟨("Name 1"), 10⟩,
        PtrEvent.leave ⟨("Name 1"), 10⟩] rfl).2⟩
